import Mathlib

/-!
Shallow embedding of the prozchain peer-to-peer networking core
(src/network of the repository) and proofs about its behaviour.

Machine integers are modelled as `Nat` with explicit bounds or reductions
modulo `2 ^ w` where the source can overflow.  Rust `HashMap` and `HashSet`
fields are modelled as functions into `Option _` respectively `Bool`
(extensionally equal to the map content; iteration order never matters for
the properties proved here).  Wall-clock time, sockets, channels and random
number generators are external inputs and appear as explicit parameters.
-/

namespace Prozchain

/-! ## Little-endian byte helpers (Rust to_le_bytes / from_le_bytes) -/

/-- Little-endian bytes of a `u16` value (Rust `u16::to_le_bytes`). -/
def u16_to_le_bytes (v : Nat) : List Nat :=
  [v % 256, v / 256 % 256]

/-- Little-endian bytes of a `u32` value (Rust `u32::to_le_bytes`). -/
def u32_to_le_bytes (v : Nat) : List Nat :=
  [v % 256, v / 256 % 256, v / 256 ^ 2 % 256, v / 256 ^ 3 % 256]

/-- Rust `u16::from_le_bytes`. -/
def u16_from_le_bytes (b0 b1 : Nat) : Nat :=
  b0 + 256 * b1

/-- Rust `u32::from_le_bytes`. -/
def u32_from_le_bytes (b0 b1 b2 b3 : Nat) : Nat :=
  b0 + 256 * b1 + 256 ^ 2 * b2 + 256 ^ 3 * b3

/-- Rust `u64::from_le_bytes`. -/
def u64_from_le_bytes (b0 b1 b2 b3 b4 b5 b6 b7 : Nat) : Nat :=
  b0 + 256 * b1 + 256 ^ 2 * b2 + 256 ^ 3 * b3 +
    256 ^ 4 * b4 + 256 ^ 5 * b5 + 256 ^ 6 * b6 + 256 ^ 7 * b7

/-! ## src/network/message.rs -/

/-- Protocol identifier for messages (enum `Protocol` in
src/network/message.rs).  The variants are declared in the same order as in
the Rust source, which fixes the discriminants the Rust `as` cast uses. -/
inductive Protocol
  | Discovery
  | BlockExchange
  | Transaction
  | Consensus
  | StateSync
  | Control
  | Identity
deriving DecidableEq, Repr

/-- Value of the Rust cast `protocol as u16`: the declaration-order
discriminant of the `Protocol` enum, which carries no explicit
discriminant values in the source. -/
def Protocol.discriminant : Protocol → Nat
  | .Discovery => 0
  | .BlockExchange => 1
  | .Transaction => 2
  | .Consensus => 3
  | .StateSync => 4
  | .Control => 5
  | .Identity => 6

/-- Embedding of `Protocol::as_u8`. -/
def Protocol.as_u8 : Protocol → Nat
  | .Discovery => 1
  | .BlockExchange => 2
  | .Transaction => 3
  | .Consensus => 4
  | .StateSync => 5
  | .Control => 6
  | .Identity => 7

/-- Embedding of `Protocol::from_u8` (the argument is a `u8` value). -/
def Protocol.from_u8 : Nat → Option Protocol
  | 1 => some .Discovery
  | 2 => some .BlockExchange
  | 3 => some .Transaction
  | 4 => some .Consensus
  | 5 => some .StateSync
  | 6 => some .Control
  | 7 => some .Identity
  | _ => none

/-- Embedding of struct `MessageHeader`.  Fields are `Nat` carrying the
values of the Rust `u16` / `u32` / `u8` fields. -/
structure MessageHeader where
  protocol_id : Nat
  message_type : Nat
  length : Nat
  version : Nat
  flags : Nat
deriving DecidableEq, Repr

/-- Embedding of struct `Message`: header plus payload bytes. -/
structure Message where
  header : MessageHeader
  payload : List Nat
deriving DecidableEq, Repr

/-- Type invariant of the Rust `Message`: every field fits its declared
machine-integer type and payload entries are bytes. -/
def Message.Wf (m : Message) : Prop :=
  m.header.protocol_id < 2 ^ 16 ∧ m.header.message_type < 2 ^ 16 ∧
    m.header.length < 2 ^ 32 ∧ m.header.version < 2 ^ 8 ∧
    m.header.flags < 2 ^ 8 ∧ ∀ b ∈ m.payload, b < 2 ^ 8

/-- Embedding of `Message::new`.  The source sets
`protocol_id: protocol as u16`, i.e. the enum discriminant, and truncates
`payload.len()` with `as u32`. -/
def Message.new (protocol : Protocol) (message_type : Nat) (payload : List Nat) : Message :=
  { header :=
      { protocol_id := protocol.discriminant
        message_type := message_type
        length := payload.length % 2 ^ 32
        version := 1
        flags := 0 }
    payload := payload }

/-- Embedding of `Message::serialize`.  The source always returns `Ok`, so
the `Result` wrapper is dropped here; the returned list is the byte buffer:
two bytes of `protocol_id`, two of `message_type`, four of `length`, then
the `version` and `flags` bytes, then the payload. -/
def Message.serialize (m : Message) : List Nat :=
  u16_to_le_bytes m.header.protocol_id ++ u16_to_le_bytes m.header.message_type ++
    u32_to_le_bytes m.header.length ++ [m.header.version, m.header.flags] ++ m.payload

/-- Error cases of `Message::deserialize` (the source reports them as
strings; the two distinct `Err` sites are named here). -/
inductive DeserializeError
  | tooShort
  | invalidLength
deriving DecidableEq, Repr

/-- Embedding of `Message::deserialize`: reject inputs shorter than 12
bytes, read the header fields little-endian from offsets 0..9, reject
unless `bytes.len() == 12 + length`, and take the payload from offset 12.
No other validation is performed by the source. -/
def Message.deserialize (bytes : List Nat) : Except DeserializeError Message :=
  if bytes.length < 12 then
    .error .tooShort
  else
    let protocol_id := u16_from_le_bytes (bytes.getD 0 0) (bytes.getD 1 0)
    let message_type := u16_from_le_bytes (bytes.getD 2 0) (bytes.getD 3 0)
    let length := u32_from_le_bytes (bytes.getD 4 0) (bytes.getD 5 0) (bytes.getD 6 0) (bytes.getD 7 0)
    let version := bytes.getD 8 0
    let flags := bytes.getD 9 0
    if bytes.length ≠ 12 + length then
      .error .invalidLength
    else
      .ok
        { header :=
            { protocol_id := protocol_id
              message_type := message_type
              length := length
              version := version
              flags := flags }
          payload := bytes.drop 12 }

/-- Length value declared in the header of a byte string, as
`Message::deserialize` reads it (little-endian `u32` at offsets 4..7). -/
def declared_length (bytes : List Nat) : Nat :=
  u32_from_le_bytes (bytes.getD 4 0) (bytes.getD 5 0) (bytes.getD 6 0) (bytes.getD 7 0)

/-! ## src/types/mod.rs -/

/-- Embedding of `PeerId` (a 32-byte opaque identity in the source).  Only
equality of peer ids is used by the code under consideration, so the bytes
are modelled by a single natural number. -/
structure PeerId where
  id : Nat
deriving DecidableEq, Repr

/-- Embedding of enum `ProtocolId` from src/types/mod.rs. -/
inductive ProtocolId
  | PeerDiscovery
  | BlockSync
  | TransactionPropagation
  | ConsensusMessages
  | LightClientSync
  | StateSync
deriving DecidableEq, Repr

/-- Embedding of enum `ConnectionDirection`. -/
inductive ConnectionDirection
  | Inbound
  | Outbound
deriving DecidableEq, Repr

/-- Embedding of enum `DisconnectReason`. -/
inductive DisconnectReason
  | Normal
  | Timeout
  | ProtocolViolation
  | PeerBanned
  | TooManyPeers
  | DuplicateConnection
  | IncompatibleProtocol
  | ConnectionRefused
  | NetworkError
  | Other
deriving DecidableEq, Repr

/-! ## src/network/protocol_version.rs -/

/-- Embedding of struct `ProtocolVersion` (fields are `u8` in the source). -/
structure ProtocolVersion where
  major : Nat
  minor : Nat
  patch : Nat
deriving DecidableEq, Repr

/-- Embedding of `ProtocolVersion::is_compatible_with`: the major versions
must match exactly and the minor version of `self` must be greater than or
equal to the minor version of `other`.  The patch component is ignored. -/
def ProtocolVersion.is_compatible_with (self other : ProtocolVersion) : Bool :=
  if self.major ≠ other.major then false
  else if self.minor < other.minor then false
  else true

/-- Embedding of enum `FeatureFlag`. -/
inductive FeatureFlag
  | CompactBlocks
  | CompactTransactions
  | FastSync
  | HeaderVerification
  | Compression
  | Encryption
  | PriorityTransactions
  | GrapheneBlockSupport
  | AnchorSync
deriving DecidableEq, Repr

/-- Embedding of struct `ProtocolCapabilities`.  The `HashMap` of supported
protocols is modelled as a function into `Option ProtocolVersion` and the
`HashSet` of features as a boolean predicate. -/
structure ProtocolCapabilities where
  supported_protocols : ProtocolId → Option ProtocolVersion
  features : FeatureFlag → Bool

/-- Embedding of struct `NegotiatedProtocols`. -/
structure NegotiatedProtocols where
  protocols : ProtocolId → Option ProtocolVersion
  features : FeatureFlag → Bool

/-- Embedding of struct `ProtocolNegotiator`. -/
structure ProtocolNegotiator where
  local_capabilities : ProtocolCapabilities
  min_compatible_version : ProtocolId → Option ProtocolVersion

/-- Embedding of `ProtocolNegotiator::negotiate`.  For every protocol
supported by both sides the source checks, when a per-protocol minimum is
configured, `min_version.is_compatible_with(remote_version)` and skips the
protocol when that fails; otherwise it stores the version
`(local.major, min(local.minor, remote.minor), min(local.patch, remote.patch))`.
Features are intersected.  The source performs no comparison between the
local and the remote major version. -/
def ProtocolNegotiator.negotiate (self : ProtocolNegotiator)
    (remote_capabilities : ProtocolCapabilities) : NegotiatedProtocols :=
  { protocols := fun protocol =>
      match self.local_capabilities.supported_protocols protocol with
      | none => none
      | some local_version =>
        match remote_capabilities.supported_protocols protocol with
        | none => none
        | some remote_version =>
          match self.min_compatible_version protocol with
          | some min_version =>
            if ¬ min_version.is_compatible_with remote_version then
              none
            else
              some
                { major := local_version.major
                  minor := min local_version.minor remote_version.minor
                  patch := min local_version.patch remote_version.patch }
          | none =>
            some
              { major := local_version.major
                minor := min local_version.minor remote_version.minor
                patch := min local_version.patch remote_version.patch }
    features := fun feature =>
      self.local_capabilities.features feature && remote_capabilities.features feature }

/-! ## src/network/connection.rs

Sockets, TLS and channels are external; `Instant` timestamps are modelled
as naturals supplied by the caller.  The outcome of `TcpStream::connect`
is an explicit boolean input and the randomly generated temporary peer id
an explicit parameter. -/

/-- Embedding of `IpAddr`.  Only equality of addresses is used, so the
address is modelled by a single natural number. -/
structure IpAddr where
  addr : Nat
deriving DecidableEq, Repr

/-- Embedding of `SocketAddr`: IP address plus port. -/
structure SocketAddr where
  ip : IpAddr
  port : Nat
deriving DecidableEq, Repr

/-- Embedding of struct `ConnectionConfig` (the TLS settings are not used
by any modelled operation and are omitted). -/
structure ConnectionConfig where
  handshake_timeout : Nat
  max_pending_connections : Nat
  enable_0rtt : Bool
deriving DecidableEq, Repr

/-- Embedding of enum `ConnectionState`. -/
inductive ConnectionState
  | Connecting
  | Handshaking
  | Connected
  | ShuttingDown
  | Disconnected
deriving DecidableEq, Repr

/-- Embedding of struct `ConnectionLimits`. -/
structure ConnectionLimits where
  max_inbound_connections : Nat
  max_outbound_connections : Nat
  max_connections_per_ip : Nat
  max_pending_handshakes : Nat
  handshake_timeout : Nat
  idle_timeout : Nat
deriving DecidableEq, Repr

/-- Embedding of `impl Default for ConnectionLimits` (timeouts in
seconds). -/
def ConnectionLimits.default : ConnectionLimits :=
  { max_inbound_connections := 128
    max_outbound_connections := 32
    max_connections_per_ip := 5
    max_pending_handshakes := 10
    handshake_timeout := 10
    idle_timeout := 60 * 10 }

/-- Embedding of struct `Connection` (the `message_tx` channel handle is
external and omitted). -/
structure Connection where
  peer_id : PeerId
  address : SocketAddr
  direction : ConnectionDirection
  state : ConnectionState
  connected_at : Nat
  last_activity : Nat
  user_agent : String
  protocol_version : Nat
deriving DecidableEq, Repr

/-- Embedding of struct `ConnectionManager`.  The `HashMap`s are modelled
as association lists: `connections` keyed by peer id, `connecting` and
`handshaking` keyed by socket address with the `Instant` they were added,
and `ip_connections` keyed by IP address with a count. -/
structure ConnectionManager where
  config : ConnectionConfig
  limits : ConnectionLimits
  connections : List (PeerId × Connection)
  connecting : List (SocketAddr × Nat)
  handshaking : List (SocketAddr × Nat)
  ip_connections : List (IpAddr × Nat)
deriving DecidableEq, Repr

/-- Embedding of `ConnectionManager::new`. -/
def ConnectionManager.new (config : ConnectionConfig) (limits : ConnectionLimits) :
    ConnectionManager :=
  { config := config
    limits := limits
    connections := []
    connecting := []
    handshaking := []
    ip_connections := [] }

/-- Count stored for an IP in `ip_connections` (0 when absent, matching
`get(&ip).cloned().unwrap_or(0)`). -/
def ConnectionManager.ip_count (self : ConnectionManager) (ip : IpAddr) : Nat :=
  match self.ip_connections.lookup ip with
  | some n => n
  | none => 0

/-- Update helper for the `ip_connections` association list: replace the
count stored for `ip` by `n` (inserting the entry when absent). -/
def set_ip_count (l : List (IpAddr × Nat)) (ip : IpAddr) (n : Nat) : List (IpAddr × Nat) :=
  match l with
  | [] => [(ip, n)]
  | (k, v) :: rest => if k = ip then (k, n) :: rest else (k, v) :: set_ip_count rest ip n

/-- Remove an entry from the `ip_connections` association list. -/
def remove_ip (l : List (IpAddr × Nat)) (ip : IpAddr) : List (IpAddr × Nat) :=
  match l with
  | [] => []
  | (k, v) :: rest => if k = ip then rest else (k, v) :: remove_ip rest ip

/-- Embedding of `ConnectionManager::handle_inbound_connection`.  The
source checks the connection and per-IP limits and the pending lists, then
records the address in `handshaking` and spawns a background handshake
task; that task only logs and registers nothing, so no other state
changes. -/
def ConnectionManager.handle_inbound_connection (self : ConnectionManager)
    (addr : SocketAddr) (now : Nat) : ConnectionManager × Except String Unit :=
  if self.limits.max_inbound_connections ≤ self.connections.length then
    (self, .error "Too many connections")
  else
    let ip := addr.ip
    let ip_count := self.ip_count ip
    if self.limits.max_connections_per_ip ≤ ip_count then
      (self, .error "Too many connections from this IP")
    else if (self.connecting.lookup addr).isSome || (self.handshaking.lookup addr).isSome then
      (self, .error "Already connecting to this address")
    else
      ({ self with handshaking := (addr, now) :: self.handshaking }, .ok ())

/-- Embedding of `ConnectionManager::perform_outbound_handshake`: the
source is a placeholder that always succeeds, returning a `Connected`
connection for a freshly generated random peer id (here the explicit
parameter `fresh_peer_id`). -/
def ConnectionManager.perform_outbound_handshake (_self : ConnectionManager)
    (addr : SocketAddr) (fresh_peer_id : PeerId) (now : Nat) : Except String Connection :=
  .ok
    { peer_id := fresh_peer_id
      address := addr
      direction := .Outbound
      state := .Connected
      connected_at := now
      last_activity := now
      user_agent := "unknown"
      protocol_version := 1 }

/-- Embedding of `ConnectionManager::establish_outbound_connection`.
`tcp_ok` is the outcome of the external `TcpStream::connect` (timeouts and
I/O failures both map to `false`).  On a successful handshake the source
increments `ip_connections` for the target IP and returns the connection;
the comment in the source notes that storing the connection in
`connections` is left unimplemented, and accordingly no entry is added
there. -/
def ConnectionManager.establish_outbound_connection (self : ConnectionManager)
    (addr : SocketAddr) (fresh_peer_id : PeerId) (tcp_ok : Bool) (now : Nat) :
    ConnectionManager × Except String Connection :=
  if self.limits.max_outbound_connections ≤ self.connections.length then
    (self, .error "Too many outbound connections")
  else
    let ip := addr.ip
    let ip_count := self.ip_count ip
    if self.limits.max_connections_per_ip ≤ ip_count then
      (self, .error "Too many connections to this IP")
    else if (self.connecting.lookup addr).isSome then
      (self, .error "Already connecting to this address")
    else
      let after_insert := { self with connecting := (addr, now) :: self.connecting }
      if ¬ tcp_ok then
        ({ after_insert with
             connecting := after_insert.connecting.filter (fun e => e.1 ≠ addr) },
          .error "Connection failed")
      else
        match after_insert.perform_outbound_handshake addr fresh_peer_id now with
        | .ok connection =>
          let after_remove :=
            { after_insert with
                connecting := after_insert.connecting.filter (fun e => e.1 ≠ addr) }
          ({ after_remove with
               ip_connections :=
                 set_ip_count after_remove.ip_connections ip (after_remove.ip_count ip + 1) },
            .ok connection)
        | .error e =>
          ({ after_insert with
               connecting := after_insert.connecting.filter (fun e => e.1 ≠ addr) },
            .error e)

/-- Embedding of `ConnectionManager::disconnect`: remove the connection of
the peer when present, decrement the per-IP count with saturating
subtraction, and drop the counter entry when it reaches zero. -/
def ConnectionManager.disconnect (self : ConnectionManager) (peer_id : PeerId)
    (_reason : DisconnectReason) : ConnectionManager :=
  match self.connections.lookup peer_id with
  | none => self
  | some connection =>
    let remaining := self.connections.filter (fun e => e.1 ≠ peer_id)
    let ip := connection.address.ip
    let after_connections := { self with connections := remaining }
    match after_connections.ip_connections.lookup ip with
    | none => after_connections
    | some count =>
      let new_count := count - 1
      if new_count = 0 then
        { after_connections with
            ip_connections := remove_ip after_connections.ip_connections ip }
      else
        { after_connections with
            ip_connections := set_ip_count after_connections.ip_connections ip new_count }

/-- Sum of all per-IP counts held in `ip_connections`. -/
def ConnectionManager.ip_connections_sum (self : ConnectionManager) : Nat :=
  (self.ip_connections.map Prod.snd).sum

/-! ## src/network/security.rs  (DoS protection)

The token buckets use atomics and wall-clock refill; here a bucket carries
its token count as observed at the call, with the lazy refill already
folded into that count.  The `ExpiringSet` of banned addresses stores, per
address, the ban duration in seconds of the most recent insertion (expiry
is wall-clock time and is not modelled).  The `ExpiringCache` of recent
violators stores the most recent violation per peer.  Operations that can
request disconnects return, next to the state, the list of `(peer, reason)`
disconnect requests actually issued through
`ConnectionManagerInterface::disconnect`; note that the ban path never
issues one, because the synchronous `ban_peer` calls that async method
without awaiting it, dropping the returned future unpolled. -/

/-- Embedding of enum `ResourceType`. -/
inductive ResourceType
  | InboundConnections
  | RpcRequests
  | BlockRequests
  | TransactionAnnouncements
  | TotalBandwidth
deriving DecidableEq, Repr

/-- Embedding of enum `ViolationType`. -/
inductive ViolationType
  | RateLimit (resource : ResourceType)
  | ProtocolViolation
  | InvalidMessage
  | InvalidBlock
  | InvalidTransaction
deriving DecidableEq, Repr

/-- Embedding of `ViolationType::penalty_points`. -/
def ViolationType.penalty_points : ViolationType → Nat
  | .RateLimit _ => 1
  | .ProtocolViolation => 5
  | .InvalidMessage => 2
  | .InvalidBlock => 10
  | .InvalidTransaction => 3

/-- Embedding of struct `RateLimiter`: capacity, refill rate per second,
and the current token count (the value of the atomic after the lazy
refill performed on access). -/
structure RateLimiter where
  capacity : Nat
  refill_rate : Nat
  current_tokens : Nat
deriving DecidableEq, Repr

/-- Embedding of `RateLimiter::new`: the bucket starts full. -/
def RateLimiter.new (capacity refill_rate : Nat) : RateLimiter :=
  { capacity := capacity, refill_rate := refill_rate, current_tokens := capacity }

/-- Embedding of `RateLimiter::try_consume`: succeed and subtract exactly
when at least `amount` tokens are available. -/
def RateLimiter.try_consume (self : RateLimiter) (amount : Nat) : Bool × RateLimiter :=
  if self.current_tokens < amount then
    (false, self)
  else
    (true, { self with current_tokens := self.current_tokens - amount })

/-- Embedding of struct `DoSProtection`.  `HashMap`s and `HashSet`s are
modelled as functions; `penalty_scores` returns 0 for absent peers
(matching `entry(..).or_insert(0)`), `banned_addresses` returns the ban
duration in seconds of the latest ban for the address. -/
structure DoSProtection where
  rate_limiters : ResourceType → Option RateLimiter
  ban_threshold : Nat
  penalty_scores : PeerId → Nat
  recent_violators : PeerId → Option ViolationType
  whitelist : IpAddr → Bool
  peer_to_addr : PeerId → Option IpAddr
  banned_addresses : IpAddr → Option Nat

/-- Embedding of `DoSProtection::new`: the four configured buckets (there
is no limiter for `RpcRequests`), ban threshold 20, and empty ledgers. -/
def DoSProtection.new (whitelist : IpAddr → Bool) : DoSProtection :=
  { rate_limiters := fun resource =>
      match resource with
      | .InboundConnections => some (RateLimiter.new 5 1)
      | .BlockRequests => some (RateLimiter.new 10 2)
      | .TransactionAnnouncements => some (RateLimiter.new 100 50)
      | .TotalBandwidth => some (RateLimiter.new 1000000 500000)
      | .RpcRequests => none
    ban_threshold := 20
    penalty_scores := fun _ => 0
    recent_violators := fun _ => none
    whitelist := whitelist
    peer_to_addr := fun _ => none
    banned_addresses := fun _ => none }

/-- Embedding of `DoSProtection::check_rate_limit`: a peer whose known
address is whitelisted passes immediately; otherwise the bucket for the
resource must exist and must yield `amount` tokens.  The result is paired
with the state carrying the updated bucket (the source mutates the bucket
through atomics behind a shared reference). -/
def DoSProtection.check_rate_limit (self : DoSProtection) (resource : ResourceType)
    (peer_id : PeerId) (amount : Nat) : Except String Unit × DoSProtection :=
  let whitelisted :=
    match self.peer_to_addr peer_id with
    | some addr => self.whitelist addr
    | none => false
  if whitelisted then
    (.ok (), self)
  else
    match self.rate_limiters resource with
    | none => (.error "Rate limiter not found", self)
    | some limiter =>
      let consumed := limiter.try_consume amount
      let updated :=
        { self with
            rate_limiters := fun r => if r = resource then some consumed.2 else self.rate_limiters r }
      if ¬ consumed.1 then
        (.error "Rate limit exceeded", updated)
      else
        (.ok (), updated)

/-- Embedding of `DoSProtection::calculate_ban_duration` in seconds:
`(2 ^ (score / 5) - 1)` hours capped at one week.  This matches the `u64`
arithmetic of the source whenever `score / 5 < 64` (beyond that the Rust
`pow` overflows). -/
def DoSProtection.calculate_ban_duration (self : DoSProtection) (peer_id : PeerId) : Nat :=
  let score := self.penalty_scores peer_id
  let hours := min (2 ^ (score / 5) - 1) (24 * 7)
  hours * 3600

/-- Embedding of `DoSProtection::ban_peer`: when the address of the peer
is known, record it in `banned_addresses` with the computed duration.  The
second component is the list of disconnect requests actually issued, and
it is always empty: the source is a synchronous `fn` that calls the async
`ConnectionManagerInterface::disconnect(peer_id, PeerBanned)` WITHOUT
awaiting it, so the returned future is dropped unpolled and the request is
never sent.  The whitelist is not consulted on this path either. -/
def DoSProtection.ban_peer (self : DoSProtection) (peer_id : PeerId) :
    DoSProtection × List (PeerId × DisconnectReason) :=
  match self.peer_to_addr peer_id with
  | none => (self, [])
  | some addr =>
    let ban_duration := self.calculate_ban_duration peer_id
    ({ self with
         banned_addresses := fun a => if a = addr then some ban_duration else self.banned_addresses a },
      [])

/-- Embedding of `DoSProtection::record_violation`: remember the violation,
add its penalty points to the score of the peer, and ban the peer once the
accumulated score reaches the ban threshold. -/
def DoSProtection.record_violation (self : DoSProtection) (peer_id : PeerId)
    (violation : ViolationType) : DoSProtection × List (PeerId × DisconnectReason) :=
  let new_score := self.penalty_scores peer_id + violation.penalty_points
  let updated :=
    { self with
        recent_violators := fun q => if q = peer_id then some violation else self.recent_violators q
        penalty_scores := fun q => if q = peer_id then new_score else self.penalty_scores q }
  if self.ban_threshold ≤ new_score then
    updated.ban_peer peer_id
  else
    (updated, [])

/-! ## src/network/propagation.rs  (random-subset selection)

The broadcast fraction is an `f32` in the source; it is modelled as an
exact rational.  For fractions whose value and product with the peer count
are exactly representable in `f32` (all inputs appearing in the spec, such
as 0.5) the two semantics agree.  The Rust cast `as usize` truncates the
product toward zero and clamps negative values to 0, which on rationals is
`Int.toNat ∘ Int.floor`.  The shuffle performed with `thread_rng` is an
external source of randomness: the shuffled list is an explicit parameter,
constrained to be a permutation of the input where a property needs it. -/

/-- Embedding of `select_random_peers` from src/network/propagation.rs.
The source computes
`count = ((peers.len() as f32 * fraction) as usize).max(min_peers).min(peers.len())`,
shuffles a copy of `peers` and truncates it to `count`; the shuffled copy
is the parameter `shuffled`. -/
def select_random_peers (peers : List PeerId) (shuffled : List PeerId)
    (fraction : ℚ) (min_peers : Nat) : List PeerId :=
  let count := min (max (Int.toNat ⌊(peers.length : ℚ) * fraction⌋) min_peers) peers.length
  shuffled.take count

/-! ## src/network/block_propagation.rs

Transaction and block hashes are 32-byte values modelled as byte lists.
Estimated mempool prevalence and the prevalence threshold are `f32` in the
source and are modelled as exact rationals; the placeholder estimate and
the default threshold are both the literal 0.8, so the strictness of the
comparison is preserved exactly. -/

/-- Transaction hash type alias (32 bytes). -/
abbrev TransactionHash := List Nat

/-- Block hash type alias (32 bytes). -/
abbrev BlockHash := List Nat

/-- Embedding of struct `ShortTransactionId` (a `u64`). -/
structure ShortTransactionId where
  value : Nat
deriving DecidableEq, Repr

/-- Embedding of struct `OutPoint`. -/
structure OutPoint where
  txid : TransactionHash
  vout : Nat
deriving DecidableEq, Repr

/-- Embedding of struct `TransactionInput`. -/
structure TransactionInput where
  previous_output : OutPoint
  script_sig : List Nat
  sequence : Nat
deriving DecidableEq, Repr

/-- Embedding of struct `TransactionOutput`. -/
structure TransactionOutput where
  value : Nat
  script_pubkey : List Nat
deriving DecidableEq, Repr

/-- Embedding of struct `Transaction` from src/network/block_propagation.rs. -/
structure Transaction where
  version : Nat
  inputs : List TransactionInput
  outputs : List TransactionOutput
  lock_time : Nat
deriving DecidableEq, Repr

/-- Embedding of `Transaction::hash`: the source is a placeholder that
returns the all-zero 32-byte hash for every transaction. -/
def Transaction.hash (_self : Transaction) : TransactionHash :=
  List.replicate 32 0

/-- Embedding of struct `BlockHeader` from src/network/block_propagation.rs. -/
structure BlockHeader2 where
  version : Nat
  prev_block : BlockHash
  merkle_root : List Nat
  timestamp : Nat
  difficulty : Nat
  nonce : Nat
deriving DecidableEq, Repr

/-- Embedding of struct `Block`. -/
structure Block where
  header : BlockHeader2
  transactions : List Transaction
deriving DecidableEq, Repr

/-- Embedding of enum `BlockAnnouncement`. -/
inductive BlockAnnouncement
  | FullBlock (block : Block)
  | CompactBlock (header : BlockHeader2) (short_ids : List ShortTransactionId)
      (missing_transaction_hashes : List TransactionHash)
  | HeaderOnly (header : BlockHeader2)
deriving DecidableEq, Repr

/-- Embedding of `create_short_transaction_id`: the first 8 bytes of the
transaction hash interpreted as a little-endian `u64`. -/
def create_short_transaction_id (tx_hash : TransactionHash) : ShortTransactionId :=
  { value :=
      u64_from_le_bytes (tx_hash.getD 0 0) (tx_hash.getD 1 0) (tx_hash.getD 2 0)
        (tx_hash.getD 3 0) (tx_hash.getD 4 0) (tx_hash.getD 5 0) (tx_hash.getD 6 0)
        (tx_hash.getD 7 0) }

/-- Embedding of the constant `COMPACT_BLOCK_PREVALENCE_THRESHOLD` (the
literal 0.8). -/
def COMPACT_BLOCK_PREVALENCE_THRESHOLD : ℚ := 8 / 10

/-- Embedding of struct `BlockPropagator`. -/
structure BlockPropagator where
  mempool : TransactionHash → Option Transaction
  seen_blocks : BlockHash → Bool
  compact_blocks_enabled : Bool
  mempool_prevalence_threshold : ℚ

/-- Embedding of `BlockPropagator::estimate_transaction_prevalence`: the
source is a placeholder returning the literal 0.8 for every transaction. -/
def BlockPropagator.estimate_transaction_prevalence (_self : BlockPropagator)
    (_tx_hash : TransactionHash) : ℚ :=
  8 / 10

/-- Single step of the loop inside `create_compact_block`: a transaction
whose estimated prevalence is strictly greater than the threshold is
appended to the short-id list, any other to the missing-hash list. -/
def BlockPropagator.compact_step (self : BlockPropagator)
    (acc : List ShortTransactionId × List TransactionHash) (tx : Transaction) :
    List ShortTransactionId × List TransactionHash :=
  let tx_hash := tx.hash
  let mempool_prevalence := self.estimate_transaction_prevalence tx_hash
  if self.mempool_prevalence_threshold < mempool_prevalence then
    (acc.1 ++ [create_short_transaction_id tx_hash], acc.2)
  else
    (acc.1, acc.2 ++ [tx_hash])

/-- Embedding of `BlockPropagator::create_compact_block`: fold the loop
over the transactions of the block and return the compact announcement
(the source never returns the error case). -/
def BlockPropagator.create_compact_block (self : BlockPropagator) (block : Block) :
    Except String BlockAnnouncement :=
  let lists := block.transactions.foldl self.compact_step ([], [])
  .ok (.CompactBlock block.header lists.1 lists.2)

/-! ## Concrete example values used by witnesses and counterexamples -/

/-- Negotiator whose only local protocol version has major 1 and no
configured minimums. -/
def mismatchedMajorNegotiator : ProtocolNegotiator :=
  { local_capabilities :=
      { supported_protocols := fun _ => some ⟨1, 0, 0⟩
        features := fun _ => false }
    min_compatible_version := fun _ => none }

/-- Remote capabilities whose protocol versions all have major 2. -/
def mismatchedMajorRemote : ProtocolCapabilities :=
  { supported_protocols := fun _ => some ⟨2, 0, 0⟩
    features := fun _ => false }

/-- Negotiator with local version 1.2.5 everywhere and configured minimum
1.1.0. -/
def minBoundNegotiator : ProtocolNegotiator :=
  { local_capabilities :=
      { supported_protocols := fun _ => some ⟨1, 2, 5⟩
        features := fun _ => false }
    min_compatible_version := fun _ => some ⟨1, 1, 0⟩ }

/-- Remote capabilities advertising version 1.1.3 everywhere. -/
def minBoundRemote : ProtocolCapabilities :=
  { supported_protocols := fun _ => some ⟨1, 1, 3⟩
    features := fun _ => false }

/-- Concrete connection configuration. -/
def exampleConnectionConfig : ConnectionConfig :=
  { handshake_timeout := 10, max_pending_connections := 10, enable_0rtt := false }

/-- Concrete target address for an outbound dial. -/
def exampleAddr : SocketAddr :=
  { ip := { addr := 10 }, port := 9000 }

/-- Concrete DoS-protection state: peer 1 has address 7, address 7 is
whitelisted, peer 1 already carries 15 penalty points, the ban threshold
is the default 20, and the transaction-announcement bucket is empty. -/
def exampleDos : DoSProtection :=
  { rate_limiters := fun _ => some { capacity := 100, refill_rate := 50, current_tokens := 0 }
    ban_threshold := 20
    penalty_scores := fun q => if q = ⟨1⟩ then 15 else 0
    recent_violators := fun _ => none
    whitelist := fun a => a = ⟨7⟩
    peer_to_addr := fun q => if q = ⟨1⟩ then some ⟨7⟩ else none
    banned_addresses := fun _ => none }

/-- Ten distinct connected peers. -/
def peers10 : List PeerId :=
  [⟨0⟩, ⟨1⟩, ⟨2⟩, ⟨3⟩, ⟨4⟩, ⟨5⟩, ⟨6⟩, ⟨7⟩, ⟨8⟩, ⟨9⟩]

/-- Three distinct connected peers. -/
def peers3 : List PeerId :=
  [⟨0⟩, ⟨1⟩, ⟨2⟩]

/-- Block propagator configured with the default prevalence threshold. -/
def examplePropagator : BlockPropagator :=
  { mempool := fun _ => none
    seen_blocks := fun _ => false
    compact_blocks_enabled := true
    mempool_prevalence_threshold := COMPACT_BLOCK_PREVALENCE_THRESHOLD }

/-- Concrete block header. -/
def exampleHeader : BlockHeader2 :=
  { version := 1
    prev_block := List.replicate 32 0
    merkle_root := List.replicate 32 0
    timestamp := 0
    difficulty := 0
    nonce := 0 }

/-- Concrete transaction. -/
def exampleTx : Transaction :=
  { version := 1, inputs := [], outputs := [], lock_time := 0 }

/-- Concrete one-transaction block. -/
def exampleBlock : Block :=
  { header := exampleHeader, transactions := [exampleTx] }

/-! ## Theorems -/

/-- Proposition form of `ProtocolVersion::is_compatible_with`: the boolean
holds exactly when the majors agree and the minor of the second argument
does not exceed the minor of the first. -/
theorem is_compatible_with_iff (a b : ProtocolVersion) :
    a.is_compatible_with b = true ↔ (a.major = b.major ∧ b.minor ≤ a.minor) := by
  unfold ProtocolVersion.is_compatible_with
  split_ifs with h1 h2
  · simp; omega
  · simp; omega
  · simp; omega

/-- C1 (counterexample): with no configured minimum, a protocol whose
local major is 1 and remote major is 2 is NOT rejected by
`ProtocolNegotiator::negotiate`: it appears in the negotiated set with
version 1.0.0, although the claim requires its exclusion whenever
`local.major != remote.major`. -/
theorem negotiate_keeps_mismatched_majors :
    (mismatchedMajorNegotiator.negotiate mismatchedMajorRemote).protocols
        ProtocolId.PeerDiscovery = some ⟨1, 0, 0⟩ ∧
    (1 : Nat) ≠ 2 := by
  exact ⟨rfl, by decide⟩

/-- C1 (amended): for every protocol present in both capability sets,
negotiation picks the version
`(local.major, min(local.minor, remote.minor), min(local.patch, remote.patch))`;
the protocol is excluded exactly when a per-protocol minimum is configured
and either `min.major != remote.major` or `remote.minor > min.minor`.  The
local and remote major versions are never compared with each other, and
the negotiated version itself is never compared against the minimum. -/
theorem negotiate_characterization
    (neg : ProtocolNegotiator) (remote : ProtocolCapabilities) (p : ProtocolId)
    (lv rv : ProtocolVersion)
    (hl : neg.local_capabilities.supported_protocols p = some lv)
    (hr : remote.supported_protocols p = some rv) :
    ((neg.negotiate remote).protocols p =
        some ⟨lv.major, min lv.minor rv.minor, min lv.patch rv.patch⟩ ↔
      (∀ mv, neg.min_compatible_version p = some mv →
        (mv.major = rv.major ∧ rv.minor ≤ mv.minor))) ∧
    ((neg.negotiate remote).protocols p = none ↔
      (∃ mv, neg.min_compatible_version p = some mv ∧
        (mv.major ≠ rv.major ∨ mv.minor < rv.minor))) := by
  unfold ProtocolNegotiator.negotiate
  dsimp only
  rw [hl, hr]
  cases hmv : neg.min_compatible_version p with
  | none => simp
  | some mv =>
    dsimp only
    by_cases hc : mv.is_compatible_with rv = true
    · rw [if_neg (by simpa using hc)]
      rw [is_compatible_with_iff] at hc
      constructor
      · simp only [Option.some.injEq, true_iff]
        intro mv' hmv'
        cases hmv'
        exact hc
      · simp only [reduceCtorEq, false_iff, not_exists]
        rintro mv' ⟨hmv', hbad⟩
        cases hmv'
        rcases hbad with hbad | hbad
        · exact hbad hc.1
        · omega
    · rw [if_pos (by simpa using hc)]
      rw [is_compatible_with_iff] at hc
      push_neg at hc
      constructor
      · simp only [reduceCtorEq, false_iff, not_forall]
        refine ⟨mv, rfl, ?_⟩
        intro hboth
        rcases Nat.lt_or_ge mv.minor rv.minor with h | h
        · exact absurd hboth.2 (by omega)
        · exact absurd hboth.2 (fun _ => by
            have := hc hboth.1
            omega)
      · simp only [true_iff]
        refine ⟨mv, rfl, ?_⟩
        by_cases hmaj : mv.major = rv.major
        · exact Or.inr (by have := hc hmaj; omega)
        · exact Or.inl hmaj

/-- Witness for C1 (amended): the characterization applied to a
negotiator whose local version is 1.2.5, configured minimum 1.1.0, and a
remote advertising 1.1.3; the minimum is compatible with the remote, so
the negotiated version is `(1, min 2 1, min 5 3) = 1.1.3`. -/
theorem negotiate_characterization_witness :
    ((minBoundNegotiator.negotiate minBoundRemote).protocols
        ProtocolId.PeerDiscovery = some ⟨1, 1, 3⟩ ↔
      (∀ mv, minBoundNegotiator.min_compatible_version ProtocolId.PeerDiscovery = some mv →
        (mv.major = 1 ∧ 1 ≤ mv.minor))) ∧
    ((minBoundNegotiator.negotiate minBoundRemote).protocols
        ProtocolId.PeerDiscovery = none ↔
      (∃ mv, minBoundNegotiator.min_compatible_version ProtocolId.PeerDiscovery = some mv ∧
        (mv.major ≠ 1 ∨ mv.minor < 1))) :=
  negotiate_characterization minBoundNegotiator minBoundRemote ProtocolId.PeerDiscovery
    ⟨1, 2, 5⟩ ⟨1, 1, 3⟩ rfl rfl

/-- C5 (code bug): a single successful `establish_outbound_connection` on
a fresh manager increments the per-IP counter without storing the
connection (the source leaves the storing step unimplemented), so
afterwards `sum(ip_connections.values()) = 1` while `|connections| = 0`,
violating the counter-integrity invariant the claim states. -/
theorem establish_outbound_breaks_counter_integrity :
    (((ConnectionManager.new exampleConnectionConfig
          ConnectionLimits.default).establish_outbound_connection
        exampleAddr ⟨1⟩ true 0).1).ip_connections_sum = 1 ∧
    (((ConnectionManager.new exampleConnectionConfig
          ConnectionLimits.default).establish_outbound_connection
        exampleAddr ⟨1⟩ true 0).1).connections.length = 0 ∧
    (((ConnectionManager.new exampleConnectionConfig
          ConnectionLimits.default).establish_outbound_connection
        exampleAddr ⟨1⟩ true 0).2) =
      .ok
        { peer_id := ⟨1⟩
          address := exampleAddr
          direction := .Outbound
          state := .Connected
          connected_at := 0
          last_activity := 0
          user_agent := "unknown"
          protocol_version := 1 } := by
  refine ⟨rfl, rfl, rfl⟩

/-- C6 (counterexample): peer 1 has the whitelisted address 7, yet after a
violation that lifts its score to the ban threshold, `record_violation`
adds address 7 to `banned_addresses`: the ban path never consults the
whitelist, refuting the claim that a whitelisted address is never added to
the banned set. -/
theorem record_violation_bans_whitelisted_peer :
    exampleDos.whitelist ⟨7⟩ = true ∧
    exampleDos.peer_to_addr ⟨1⟩ = some ⟨7⟩ ∧
    ((exampleDos.record_violation ⟨1⟩ .InvalidBlock).1.banned_addresses ⟨7⟩).isSome = true := by
  refine ⟨rfl, rfl, rfl⟩

/-- C6 (amended): a peer whose known address is whitelisted always passes
`check_rate_limit`, whatever the bucket state; but `record_violation` does
not consult the whitelist, so when the accumulated score of such a peer
reaches the ban threshold its address is still added to
`banned_addresses`.  No disconnect request is issued on that path (for any
peer): the ban path drops the future of its un-awaited async disconnect
call. -/
theorem whitelisted_passes_rate_limit_but_is_bannable
    (s : DoSProtection) (resource : ResourceType) (p : PeerId) (amount : Nat)
    (a : IpAddr) (v : ViolationType)
    (haddr : s.peer_to_addr p = some a) (hwl : s.whitelist a = true) :
    (s.check_rate_limit resource p amount).1 = .ok () ∧
    (s.ban_threshold ≤ s.penalty_scores p + v.penalty_points →
      ((s.record_violation p v).1.banned_addresses a).isSome = true ∧
      (s.record_violation p v).2 = []) := by
  constructor
  · unfold DoSProtection.check_rate_limit
    dsimp only
    rw [haddr]
    dsimp only
    rw [if_pos hwl]
  · intro hth
    unfold DoSProtection.record_violation
    dsimp only
    rw [if_pos hth]
    unfold DoSProtection.ban_peer
    dsimp only
    rw [haddr]
    dsimp only
    rw [if_pos rfl]
    exact ⟨rfl, rfl⟩

/-- Witness for C6 (amended): evaluated on the concrete state where
peer 1 has whitelisted address 7 and already carries 15 points: a
200-token request against the empty transaction-announcement bucket still
passes, and an invalid-block violation (10 points) puts address 7 in the
banned set while issuing no disconnect request. -/
theorem whitelisted_passes_rate_limit_but_is_bannable_witness :
    (exampleDos.check_rate_limit .TransactionAnnouncements ⟨1⟩ 200).1 = .ok () ∧
    (exampleDos.ban_threshold ≤ exampleDos.penalty_scores ⟨1⟩ +
        ViolationType.penalty_points .InvalidBlock →
      ((exampleDos.record_violation ⟨1⟩ .InvalidBlock).1.banned_addresses ⟨7⟩).isSome = true ∧
      (exampleDos.record_violation ⟨1⟩ .InvalidBlock).2 = []) :=
  whitelisted_passes_rate_limit_but_is_bannable exampleDos .TransactionAnnouncements
    ⟨1⟩ 200 ⟨7⟩ .InvalidBlock (by decide) (by decide)

/-- C7 (code bug): evaluated at the failing input (peer 1 with known
address 7 and 15 penalty points commits an invalid-block violation worth
10 points): the score rises monotonically to 25, which reaches the default
threshold 20, and address 7 is banned for
`min(2 ^ (25 / 5) - 1, 168) = 31` hours; but the list of disconnect
requests actually issued is empty: the synchronous `ban_peer` drops the
future of its un-awaited async `disconnect(peer, PeerBanned)` call, so the
peer is never disconnected with reason `PeerBanned` as the claim
requires. -/
theorem ban_recorded_but_no_disconnect_issued :
    exampleDos.penalty_scores ⟨1⟩ ≤
      (exampleDos.record_violation ⟨1⟩ .InvalidBlock).1.penalty_scores ⟨1⟩ ∧
    (exampleDos.record_violation ⟨1⟩ .InvalidBlock).1.penalty_scores ⟨1⟩ = 25 ∧
    exampleDos.ban_threshold = 20 ∧
    (exampleDos.record_violation ⟨1⟩ .InvalidBlock).1.banned_addresses ⟨7⟩ =
      some (min (2 ^ (25 / 5) - 1) (24 * 7) * 3600) ∧
    (exampleDos.record_violation ⟨1⟩ .InvalidBlock).2 = [] := by
  refine ⟨by decide, rfl, rfl, rfl, rfl⟩

/-- C8 (counterexample): with 3 connected peers, fraction 1/2 and
`min_peers = 0`, `select_random_peers` selects
`min(max(⌊3 · 1/2⌋, 0), 3) = 1` peer, while the claimed formula
`max(⌈3 · 1/2⌉, 0)` demands 2: the source truncates the product instead
of taking its ceiling. -/
theorem random_subset_size_is_floor_not_ceiling :
    (select_random_peers peers3 peers3 (1 / 2 : ℚ) 0).length = 1 ∧
    max (Int.toNat ⌈(peers3.length : ℚ) * (1 / 2 : ℚ)⌉) 0 = 2 := by
  have hlen : peers3.length = 3 := rfl
  constructor
  · have hfloor : Int.toNat ⌊(peers3.length : ℚ) * (1 / 2 : ℚ)⌋ = 1 := by
      rw [hlen]
      norm_num
    unfold select_random_peers
    dsimp only
    rw [hfloor]
    rfl
  · rw [hlen]
    rw [show ((3 : Nat) : ℚ) * (1 / 2 : ℚ) = 3 / 2 by norm_num]
    rw [show (⌈(3 / 2 : ℚ)⌉ : ℤ) = 2 by
      rw [Int.ceil_eq_iff]
      constructor
      · norm_num
      · norm_num]
    rfl

/-- C8 (amended): under `RandomSubset{fraction, min_peers}` the number of
selected peers is `min(max(⌊fraction · N⌋, min_peers), N)` for N connected
peers (the product is truncated toward zero and the result never exceeds
N); in particular with 10 peers and `RandomSubset{0.5, 2}` exactly 5 peers
are selected. -/
theorem select_random_peers_length
    (peers shuffled : List PeerId) (fraction : ℚ) (min_peers : Nat)
    (hperm : shuffled.Perm peers) :
    (select_random_peers peers shuffled fraction min_peers).length =
      min (max (Int.toNat ⌊(peers.length : ℚ) * fraction⌋) min_peers) peers.length := by
  unfold select_random_peers
  rw [List.length_take, hperm.length_eq]
  omega

/-- Witness for C8 (amended): with the 10 concrete peers, fraction 1/2 and
minimum 2, the selection has size `min(max(⌊5⌋, 2), 10) = 5`. -/
theorem select_random_peers_length_witness :
    (select_random_peers peers10 peers10 (1 / 2 : ℚ) 2).length =
      min (max (Int.toNat ⌊(peers10.length : ℚ) * (1 / 2 : ℚ)⌋) 2) peers10.length ∧
    min (max (Int.toNat ⌊(peers10.length : ℚ) * (1 / 2 : ℚ)⌋) 2) peers10.length = 5 :=
  ⟨select_random_peers_length peers10 peers10 (1 / 2) 2 (List.Perm.refl peers10),
    by
      have hfloor : Int.toNat ⌊(peers10.length : ℚ) * (1 / 2 : ℚ)⌋ = 5 := by
        rw [show peers10.length = 10 from rfl]
        norm_num
        rfl
      rw [hfloor]
      rfl⟩

/-- Unfolding of the transaction loop of `create_compact_block`: folding
`compact_step` splits the transactions into the short-id list of those
whose estimated prevalence is strictly above the threshold and the
full-hash list of the rest, in block order. -/
theorem compact_step_foldl (self : BlockPropagator) (txs : List Transaction)
    (acc : List ShortTransactionId × List TransactionHash) :
    txs.foldl self.compact_step acc =
      (acc.1 ++
        ((txs.filter fun tx =>
            decide (self.mempool_prevalence_threshold <
              self.estimate_transaction_prevalence tx.hash)).map
          fun tx => create_short_transaction_id tx.hash),
       acc.2 ++
        ((txs.filter fun tx =>
            ! decide (self.mempool_prevalence_threshold <
              self.estimate_transaction_prevalence tx.hash)).map
          fun tx => tx.hash)) := by
  induction txs generalizing acc with
  | nil => simp
  | cons tx rest ih =>
    rw [List.foldl_cons, ih]
    unfold BlockPropagator.compact_step
    by_cases h : self.mempool_prevalence_threshold <
        self.estimate_transaction_prevalence tx.hash
    · simp [h]
    · simp [h]

/-- C9 (counterexample): the placeholder prevalence estimate equals the
default threshold (both the literal 0.8), and because the source uses a
strict comparison the only transaction of the concrete block is carried
as a full hash with no short id, although the claim (prevalence at least
the threshold gives a short id) demands a short id. -/
theorem compact_block_full_hash_at_threshold :
    examplePropagator.estimate_transaction_prevalence exampleTx.hash =
      examplePropagator.mempool_prevalence_threshold ∧
    examplePropagator.create_compact_block exampleBlock =
      .ok (.CompactBlock exampleHeader [] [exampleTx.hash]) := by
  have hnt : ¬ examplePropagator.mempool_prevalence_threshold <
      examplePropagator.estimate_transaction_prevalence exampleTx.hash := by
    show ¬ (8 / 10 : ℚ) < 8 / 10
    norm_num
  constructor
  · rfl
  · unfold BlockPropagator.create_compact_block
    dsimp only [exampleBlock]
    rw [List.foldl_cons, List.foldl_nil]
    unfold BlockPropagator.compact_step
    dsimp only
    rw [if_neg hnt]
    rfl

/-- C9 (amended): `create_compact_block` maps a transaction to a 64-bit
short id exactly when its estimated mempool prevalence is STRICTLY
GREATER than the configured threshold and to its full 32-byte hash
otherwise, and each short id is the first 8 bytes of the transaction hash
read as a little-endian u64 (the definition of
`create_short_transaction_id`). -/
theorem create_compact_block_characterization (self : BlockPropagator) (block : Block) :
    self.create_compact_block block =
      .ok (.CompactBlock block.header
        (((block.transactions.filter fun tx =>
            decide (self.mempool_prevalence_threshold <
              self.estimate_transaction_prevalence tx.hash)).map
          fun tx => create_short_transaction_id tx.hash))
        (((block.transactions.filter fun tx =>
            ! decide (self.mempool_prevalence_threshold <
              self.estimate_transaction_prevalence tx.hash)).map
          fun tx => tx.hash))) := by
  unfold BlockPropagator.create_compact_block
  rw [compact_step_foldl]
  simp

/-- C10: `Protocol::from_u8` is a left inverse of `Protocol::as_u8` on
every variant, and every byte value outside 0x01..=0x07 is mapped to
`None`. -/
theorem from_u8_left_inverse_of_as_u8 :
    (∀ p : Protocol, Protocol.from_u8 (Protocol.as_u8 p) = some p) ∧
    (∀ n : Nat, n < 256 → ¬ (1 ≤ n ∧ n ≤ 7) → Protocol.from_u8 n = none) := by
  constructor
  · intro p
    cases p <;> rfl
  · intro n _ h
    match n with
    | 0 => rfl
    | 1 => exact absurd (by decide) h
    | 2 => exact absurd (by decide) h
    | 3 => exact absurd (by decide) h
    | 4 => exact absurd (by decide) h
    | 5 => exact absurd (by decide) h
    | 6 => exact absurd (by decide) h
    | 7 => exact absurd (by decide) h
    | (m + 8) => rfl

/-- Witness for C10: the round trip evaluated on the `Consensus` variant
and `from_u8` evaluated on the out-of-range byte 8. -/
theorem from_u8_left_inverse_of_as_u8_witness :
    Protocol.from_u8 (Protocol.as_u8 .Consensus) = some .Consensus ∧
    Protocol.from_u8 8 = none :=
  ⟨from_u8_left_inverse_of_as_u8.1 .Consensus,
    from_u8_left_inverse_of_as_u8.2 8 (by decide) (by decide)⟩

/-- C4 (code bug): `Message::new` stores the Rust enum discriminant
(`protocol as u16`, 0-based in declaration order) in `protocol_id`, not
the stable identifier assigned by `Protocol::as_u8` (1-based): evaluated
at `Protocol::Discovery` the header carries 0 while `as_u8` yields 1, and
`from_u8` does not even recognise the stored value. -/
theorem message_new_protocol_id_mismatch :
    (Message.new Protocol.Discovery 7 [1, 2, 3]).header.protocol_id = 0 ∧
    Protocol.as_u8 Protocol.Discovery = 1 ∧
    Protocol.from_u8 (Message.new Protocol.Discovery 7 [1, 2, 3]).header.protocol_id = none := by
  refine ⟨rfl, rfl, rfl⟩

/-- C3 (code bug): `Message::serialize` writes a 10-byte header
(2 + 2 + 4 + 1 + 1) while `Message::deserialize` requires
`bytes.len() == 12 + length` and reads the payload from offset 12, so the
round trip fails on every message: evaluated on a well-formed message with
`length == payload.len() == 3`, the serialized buffer has 13 bytes and
deserialization reports the invalid-length error instead of returning the
message. -/
theorem serialize_deserialize_roundtrip_fails :
    (Message.serialize { header := ⟨1, 2, 3, 1, 0⟩, payload := [10, 20, 30] }).length = 13 ∧
    Message.deserialize
        (Message.serialize { header := ⟨1, 2, 3, 1, 0⟩, payload := [10, 20, 30] }) =
      .error .invalidLength := by
  refine ⟨rfl, rfl⟩

/-- C2 (counterexample): a 12-byte input whose `protocol_id` field is 0 is
not a known protocol identifier, yet `Message::deserialize` accepts it and
returns the parsed message, instead of the unknown-protocol error the
claim requires. -/
theorem deserialize_accepts_unknown_protocol :
    Message.deserialize (List.replicate 12 0) = .ok ⟨⟨0, 0, 0, 0, 0⟩, []⟩ ∧
    Protocol.from_u8 0 = none := by
  refine ⟨rfl, rfl⟩

/-- C2 (amended): `Message::deserialize` rejects its input in exactly two
cases: fewer than 12 bytes (message too short) and
`bytes.len() ≠ 12 + header.length` (invalid message length); it performs
no protocol-id validation and no maximum-size check, and otherwise returns
the message parsed from the little-endian header fields and the bytes from
offset 12. -/
theorem deserialize_error_characterization (bytes : List Nat) :
    ((∃ e, Message.deserialize bytes = .error e) ↔
      bytes.length < 12 ∨ bytes.length ≠ 12 + declared_length bytes) ∧
    (bytes.length < 12 → Message.deserialize bytes = .error .tooShort) ∧
    (12 ≤ bytes.length → bytes.length ≠ 12 + declared_length bytes →
      Message.deserialize bytes = .error .invalidLength) ∧
    (12 ≤ bytes.length → bytes.length = 12 + declared_length bytes →
      Message.deserialize bytes =
        .ok
          { header :=
              { protocol_id := u16_from_le_bytes (bytes.getD 0 0) (bytes.getD 1 0)
                message_type := u16_from_le_bytes (bytes.getD 2 0) (bytes.getD 3 0)
                length := declared_length bytes
                version := bytes.getD 8 0
                flags := bytes.getD 9 0 }
            payload := bytes.drop 12 }) := by
  by_cases h1 : bytes.length < 12
  · have hd : Message.deserialize bytes = .error .tooShort := by
      unfold Message.deserialize
      rw [if_pos h1]
    exact ⟨⟨fun _ => Or.inl h1, fun _ => ⟨_, hd⟩⟩, fun _ => hd,
      fun h _ => absurd h1 (by omega), fun h _ => absurd h1 (by omega)⟩
  · by_cases h2 : bytes.length = 12 + declared_length bytes
    · have hd : Message.deserialize bytes =
          .ok
            { header :=
                { protocol_id := u16_from_le_bytes (bytes.getD 0 0) (bytes.getD 1 0)
                  message_type := u16_from_le_bytes (bytes.getD 2 0) (bytes.getD 3 0)
                  length := declared_length bytes
                  version := bytes.getD 8 0
                  flags := bytes.getD 9 0 }
              payload := bytes.drop 12 } := by
        unfold Message.deserialize
        rw [if_neg h1]
        dsimp only
        rw [if_neg (by exact fun h => h h2)]
        rfl
      refine ⟨⟨?_, fun h => absurd h (by omega)⟩, fun h => absurd h h1,
        fun _ h => absurd h2 h, fun _ _ => hd⟩
      rintro ⟨e, he⟩
      rw [hd] at he
      exact absurd he (by simp)
    · have hd : Message.deserialize bytes = .error .invalidLength := by
        unfold Message.deserialize
        rw [if_neg h1]
        dsimp only
        rw [if_pos (by exact h2)]
      exact ⟨⟨fun _ => Or.inr h2, fun _ => ⟨_, hd⟩⟩, fun h => absurd h h1,
        fun _ _ => hd, fun _ h => absurd h h2⟩

/-- Witness for C2 (amended): each case of the characterization evaluated
on a concrete input: an 11-byte input is too short, a 12-byte input
declaring length 5 has an invalid length, and a 13-byte input declaring
length 1 parses to the expected message. -/
theorem deserialize_error_characterization_witness :
    Message.deserialize (List.replicate 11 0) = .error .tooShort ∧
    Message.deserialize [0, 0, 0, 0, 5, 0, 0, 0, 0, 0, 0, 0] = .error .invalidLength ∧
    Message.deserialize [3, 0, 4, 0, 1, 0, 0, 0, 1, 2, 0, 0, 9] =
      .ok ⟨⟨3, 4, 1, 1, 2⟩, [9]⟩ :=
  ⟨(deserialize_error_characterization (List.replicate 11 0)).2.1 (by decide),
    (deserialize_error_characterization [0, 0, 0, 0, 5, 0, 0, 0, 0, 0, 0, 0]).2.2.1
      (by decide) (by decide),
    (deserialize_error_characterization [3, 0, 4, 0, 1, 0, 0, 0, 1, 2, 0, 0, 9]).2.2.2
      (by decide) (by decide)⟩

end Prozchain
